import Mathlib

/-!
Shallow embedding of the core of the `lei` compiler (C++ sources under
`src/`), written to settle the frozen claims C1..C10.

Conventions:
* every definition is transcribed from the named C++ function; comments give
  the file and the behaviourally relevant lines;
* C++ exceptions are modelled with `Except`;
* the singleton `ErrorHandler` bus and `SymbolTable` are modelled as explicit
  state records threaded through the visitors;
* loops are given an explicit fuel argument (a standard embedding device for
  `while` loops); every theorem below evaluates the functions on concrete
  inputs, for which the chosen fuel is ample, or reasons about structurally
  recursive definitions.
-/

namespace Lei

/-! ## Tokens (src/src/token.h; the `VOID` member is referenced by
`Parser::parseType` in src/src/parser.cpp line 107 although it is absent from
both token-type enums in src/src/token.h and src/src/lexer.h; it is included
here so that the parser fragment can be transcribed as written — the lexer
never produces it). -/

inductive TokenType where
  | FN | INT | FLOAT_TYPE | BOOL_TYPE | STRING_TYPE | VAR | RETURN | IF | ELSE | WHILE
  | IDENTIFIER | NUMBER | FLOAT_LITERAL | STRING_LITERAL | BOOL_LITERAL
  | PLUS | MINUS | STAR | SLASH | PLUS_EQUALS | MINUS_EQUALS | STAR_EQUALS | SLASH_EQUALS
  | EQUALS | EQUALS_EQUALS | NOT_EQUALS | LESS | LESS_EQUAL | GREATER | GREATER_EQUAL
  | AND | OR | NOT
  | LPAREN | RPAREN | LBRACE | RBRACE | LBRACKET | RBRACKET | SEMICOLON | COLON | COMMA
  | END | ERROR | VOID
  deriving DecidableEq, Repr

/-- Token (src/src/token.h lines 62-69): kind, lexeme, 1-based line and column. -/
structure Token where
  type : TokenType
  value : String
  line : Nat
  column : Nat
  deriving DecidableEq, Repr

/-- LexerError (src/src/lexer.h lines 83-118): the exception the lexer throws.
Carries the message, position and a details string. -/
structure LexerError where
  message : String
  line : Nat
  column : Nat
  details : String
  deriving DecidableEq, Repr

/-- Keyword table (src/src/lexer.cpp lines 29-42). Note the absence of a
"void" entry. -/
def keywords : List (String × TokenType) :=
  [("fn", .FN), ("int", .INT), ("float", .FLOAT_TYPE), ("bool", .BOOL_TYPE),
   ("str", .STRING_TYPE), ("var", .VAR), ("return", .RETURN), ("if", .IF),
   ("else", .ELSE), ("while", .WHILE), ("true", .BOOL_LITERAL), ("false", .BOOL_LITERAL)]

/-- Lookup in the keyword table (`keywords.find(word)` in Lexer::handleIdentifier). -/
def keywordLookup (w : String) : Option TokenType :=
  (keywords.find? (fun p => p.1 = w)).map Prod.snd

/-- The NUL character `Lexer::peek` returns at end of input. -/
def nullChar : Char := Char.ofNat 0

/-- std::isspace for the ASCII inputs the lexer handles. -/
def isSpaceChar (c : Char) : Bool :=
  c = ' ' || c = '\t' || c = '\n' || c = '\r' || c = Char.ofNat 11 || c = Char.ofNat 12

def isDigitChar (c : Char) : Bool := '0' ≤ c && c ≤ '9'

def isAlphaChar (c : Char) : Bool := ('a' ≤ c && c ≤ 'z') || ('A' ≤ c && c ≤ 'Z')

def isAlnumChar (c : Char) : Bool := isAlphaChar c || isDigitChar c

/-- Lexer cursor state (src/src/lexer.h lines 143-148): the input split at the
current byte offset (`seen` holds the consumed prefix reversed so that
`getCurrentContext` can be reproduced), and the 1-based line and column. -/
structure LexerSt where
  seen : List Char
  rest : List Char
  line : Nat
  col : Nat
  deriving DecidableEq, Repr

/-- Lexer::peek (src/src/lexer.cpp lines 52-54). -/
def LexerSt.peek (st : LexerSt) : Char := st.rest.headD nullChar

/-- Lexer::peekNext (src/src/lexer.cpp lines 56-58). -/
def LexerSt.peekNext (st : LexerSt) : Char := (st.rest.drop 1).headD nullChar

/-- Lexer::advance (src/src/lexer.cpp lines 60-70). -/
def LexerSt.advance (st : LexerSt) : LexerSt :=
  match st.rest with
  | [] => st
  | c :: rest =>
    if c = '\n' then ⟨c :: st.seen, rest, st.line + 1, 1⟩
    else ⟨c :: st.seen, rest, st.line, st.col + 1⟩

/-- Lexer::getCurrentContext (src/src/lexer.cpp lines 72-83): up to 20
characters of context either side of the current position, with a caret
marker line. -/
def LexerSt.getCurrentContext (st : LexerSt) : String :=
  let pos := st.seen.length
  let input := st.seen.reverse ++ st.rest
  let start := if pos > 20 then pos - 20 else 0
  let length := min 40 (input.length - start)
  let context := String.mk ((input.drop start).take length)
  if pos - start < context.length then
    context ++ "\n" ++ String.mk (List.replicate (pos - start) ' ') ++ "^"
  else context

/-- Loop of Lexer::handleIdentifier (src/src/lexer.cpp lines 113-116). -/
def handleIdentifierLoop : Nat → LexerSt → String → String × LexerSt
  | 0, st, acc => (acc, st)
  | fuel + 1, st, acc =>
    if st.rest ≠ [] && (isAlnumChar st.peek || st.peek = '_') then
      handleIdentifierLoop fuel st.advance (acc.push st.peek)
    else (acc, st)

/-- Lexer::handleIdentifier (src/src/lexer.cpp lines 107-125). -/
def handleIdentifier (fuel : Nat) (st : LexerSt) : Token × LexerSt :=
  let startLine := st.line
  let startColumn := st.col
  let (word, st1) := handleIdentifierLoop fuel st ""
  match keywordLookup word with
  | some t => (⟨t, word, startLine, startColumn⟩, st1)
  | none => (⟨.IDENTIFIER, word, startLine, startColumn⟩, st1)

/-- Loop of Lexer::handleNumber (src/src/lexer.cpp lines 134-158), including
the two thrown `LexerError`s for a second decimal point and for a decimal
point with no digit after it. -/
def handleNumberLoop : Nat → LexerSt → String → Bool → Bool →
    Except LexerError (String × Bool × Bool × LexerSt)
  | 0, st, num, isFloat, hasDigits => .ok (num, isFloat, hasDigits, st)
  | fuel + 1, st, num, isFloat, hasDigits =>
    if st.rest ≠ [] && (isDigitChar st.peek || st.peek = '.') then
      if st.peek = '.' then
        if isFloat then
          .error ⟨"Invalid number format: multiple decimal points", st.line, st.col,
                  "Number so far: " ++ num⟩
        else
          let num1 := if num = "" then "0" else num
          let num2 := num1.push '.'
          let st1 := st.advance
          if !isDigitChar st1.peek then
            .error ⟨"Invalid float literal: needs at least one digit after decimal point",
                    st1.line, st1.col, "Number so far: " ++ num2⟩
          else handleNumberLoop fuel st1 num2 true hasDigits
      else
        let hasDigits1 := if isFloat then true else hasDigits
        handleNumberLoop fuel st.advance (num.push st.peek) isFloat hasDigits1
    else .ok (num, isFloat, hasDigits, st)

/-- Lexer::handleNumber (src/src/lexer.cpp lines 127-167). -/
def handleNumber (fuel : Nat) (st : LexerSt) : Except LexerError (Token × LexerSt) := do
  let startLine := st.line
  let startColumn := st.col
  let (num, isFloat, hasDigits, st1) ← handleNumberLoop fuel st "" false false
  if isFloat && !hasDigits then
    .error ⟨"Invalid float literal: needs at least one digit after decimal point",
            st1.line, st1.col, "Number so far: " ++ num⟩
  else
    .ok (⟨if isFloat then .FLOAT_LITERAL else .NUMBER, num, startLine, startColumn⟩, st1)

/-- Loop of Lexer::handleString (src/src/lexer.cpp lines 176-201), including
the thrown errors for an unterminated escape, an invalid escape and a newline
inside the literal. -/
def handleStringLoop : Nat → LexerSt → String → Except LexerError (String × LexerSt)
  | 0, st, acc => .ok (acc, st)
  | fuel + 1, st, acc =>
    if st.rest ≠ [] && st.peek ≠ '\"' then
      if st.peek = '\\' then
        if st.rest.length ≤ 1 then
          .error ⟨"Unterminated escape sequence", st.line, st.col, "String so far: " ++ acc⟩
        else
          let st1 := st.advance
          let c := st1.peek
          let esc : Option Char :=
            if c = 'n' then some '\n'
            else if c = 't' then some '\t'
            else if c = 'r' then some '\r'
            else if c = '\"' then some '\"'
            else if c = '\\' then some '\\'
            else none
          match esc with
          | some e => handleStringLoop fuel st1.advance (acc.push e)
          | none =>
            .error ⟨"Invalid escape sequence", st1.line, st1.col,
                    "Invalid escape character: \\" ++ String.mk [c]⟩
      else if st.peek = '\n' then
        .error ⟨"Unterminated string literal: newline in string", st.line, st.col,
                "String so far: " ++ acc⟩
      else handleStringLoop fuel st.advance (acc.push st.peek)
    else .ok (acc, st)

/-- Lexer::handleString (src/src/lexer.cpp lines 169-211). -/
def handleString (fuel : Nat) (st : LexerSt) : Except LexerError (Token × LexerSt) := do
  let startLine := st.line
  let startColumn := st.col
  let st0 := st.advance
  let (s, st1) ← handleStringLoop fuel st0 ""
  if st1.rest = [] then
    .error ⟨"Unterminated string literal", startLine, startColumn,
            "String so far: " ++ s ++ "\nContext:\n" ++ st1.getCurrentContext⟩
  else .ok (⟨.STRING_LITERAL, s, startLine, startColumn⟩, st1.advance)

/-- Skip of a line comment inside Lexer::skipWhitespaceAndComments
(src/src/lexer.cpp lines 92-99). -/
def skipLineComment : Nat → LexerSt → LexerSt
  | 0, st => st
  | fuel + 1, st =>
    if st.rest = [] then st
    else if st.peek = '\n' then st.advance
    else skipLineComment fuel st.advance

/-- Lexer::skipWhitespaceAndComments (src/src/lexer.cpp lines 85-105). -/
def skipWhitespaceAndComments : Nat → LexerSt → LexerSt
  | 0, st => st
  | fuel + 1, st =>
    if st.rest = [] then st
    else if isSpaceChar st.peek then skipWhitespaceAndComments fuel st.advance
    else if st.peek = '/' && st.peekNext = '/' then
      skipWhitespaceAndComments fuel (skipLineComment (fuel + 1) st)
    else st

/-- Operator and punctuation switch of Lexer::tokenize (src/src/lexer.cpp
lines 236-348). `st` is the state after the initial `advance()` over
`current`; the lone-ampersand, lone-pipe and stray-character cases throw. -/
def scanOperator (st : LexerSt) (startLine startColumn : Nat) (current : Char) :
    Except LexerError (Token × LexerSt) :=
  if current = '+' then
    if st.peek = '=' then .ok (⟨.PLUS_EQUALS, "+=", startLine, startColumn⟩, st.advance)
    else .ok (⟨.PLUS, "+", startLine, startColumn⟩, st)
  else if current = '-' then
    if st.peek = '=' then .ok (⟨.MINUS_EQUALS, "-=", startLine, startColumn⟩, st.advance)
    else .ok (⟨.MINUS, "-", startLine, startColumn⟩, st)
  else if current = '*' then
    if st.peek = '=' then .ok (⟨.STAR_EQUALS, "*=", startLine, startColumn⟩, st.advance)
    else .ok (⟨.STAR, "*", startLine, startColumn⟩, st)
  else if current = '/' then
    if st.peek = '=' then .ok (⟨.SLASH_EQUALS, "/=", startLine, startColumn⟩, st.advance)
    else .ok (⟨.SLASH, "/", startLine, startColumn⟩, st)
  else if current = '=' then
    if st.peek = '=' then .ok (⟨.EQUALS_EQUALS, "==", startLine, startColumn⟩, st.advance)
    else .ok (⟨.EQUALS, "=", startLine, startColumn⟩, st)
  else if current = '!' then
    if st.peek = '=' then .ok (⟨.NOT_EQUALS, "!=", startLine, startColumn⟩, st.advance)
    else .ok (⟨.NOT, "!", startLine, startColumn⟩, st)
  else if current = '<' then
    if st.peek = '=' then .ok (⟨.LESS_EQUAL, "<=", startLine, startColumn⟩, st.advance)
    else .ok (⟨.LESS, "<", startLine, startColumn⟩, st)
  else if current = '>' then
    if st.peek = '=' then .ok (⟨.GREATER_EQUAL, ">=", startLine, startColumn⟩, st.advance)
    else .ok (⟨.GREATER, ">", startLine, startColumn⟩, st)
  else if current = '&' then
    if st.peek = '&' then .ok (⟨.AND, "&&", startLine, startColumn⟩, st.advance)
    else .error ⟨"Unexpected character", startLine, startColumn,
                 "Expected '&&' for logical AND operator"⟩
  else if current = '|' then
    if st.peek = '|' then .ok (⟨.OR, "||", startLine, startColumn⟩, st.advance)
    else .error ⟨"Unexpected character", startLine, startColumn,
                 "Expected '||' for logical OR operator"⟩
  else if current = Char.ofNat 123 then .ok (⟨.LBRACE, "\x7b", startLine, startColumn⟩, st)
  else if current = Char.ofNat 125 then .ok (⟨.RBRACE, "\x7d", startLine, startColumn⟩, st)
  else if current = '(' then .ok (⟨.LPAREN, "(", startLine, startColumn⟩, st)
  else if current = ')' then .ok (⟨.RPAREN, ")", startLine, startColumn⟩, st)
  else if current = '[' then .ok (⟨.LBRACKET, "[", startLine, startColumn⟩, st)
  else if current = ']' then .ok (⟨.RBRACKET, "]", startLine, startColumn⟩, st)
  else if current = ';' then .ok (⟨.SEMICOLON, ";", startLine, startColumn⟩, st)
  else if current = ':' then .ok (⟨.COLON, ":", startLine, startColumn⟩, st)
  else if current = ',' then .ok (⟨.COMMA, ",", startLine, startColumn⟩, st)
  else
    .error ⟨"Unexpected character", startLine, startColumn,
            "Character: '" ++ String.mk [current] ++ "'\n" ++ "Context:\n" ++
              st.getCurrentContext⟩

/-- Main loop of Lexer::tokenize (src/src/lexer.cpp lines 217-350). A thrown
`LexerError` propagates out as `.error`: the function catches nothing (the
catch clause at lines 356-358 rethrows), reports nothing to the error-handler
bus, and returns no token list. -/
def tokenizeLoop : Nat → LexerSt → List Token → Except LexerError (List Token × LexerSt)
  | 0, st, acc => .ok (acc, st)
  | fuel + 1, st, acc =>
    if st.rest = [] then .ok (acc, st)
    else
      let st := skipWhitespaceAndComments (fuel + 1) st
      if st.rest = [] then .ok (acc, st)
      else
        let startLine := st.line
        let startColumn := st.col
        let current := st.peek
        if isAlphaChar current || current = '_' then
          let (tok, st1) := handleIdentifier (fuel + 1) st
          tokenizeLoop fuel st1 (acc ++ [tok])
        else if isDigitChar current || (current = '.' && isDigitChar st.peekNext) then
          match handleNumber (fuel + 1) st with
          | .error e => .error e
          | .ok (tok, st1) => tokenizeLoop fuel st1 (acc ++ [tok])
        else if current = '\"' then
          match handleString (fuel + 1) st with
          | .error e => .error e
          | .ok (tok, st1) => tokenizeLoop fuel st1 (acc ++ [tok])
        else
          match scanOperator st.advance startLine startColumn current with
          | .error e => .error e
          | .ok (tok, st1) => tokenizeLoop fuel st1 (acc ++ [tok])

/-- Lexer::tokenize (src/src/lexer.cpp lines 213-364): scans the whole input
and appends the `END` sentinel, or propagates the first thrown `LexerError`. -/
def tokenize (input : String) : Except LexerError (List Token) := do
  let init : LexerSt := ⟨[], input.data, 1, 1⟩
  let (toks, stEnd) ← tokenizeLoop (input.length + 1) init []
  .ok (toks ++ [⟨.END, "", stEnd.line, stEnd.col⟩])

/-! ## Diagnostics bus (src/src/error_handler.h). The process singleton
`ErrorHandler` is modelled as an explicit error list threaded through the
stages. -/

inductive ErrorLevel where
  | LEXICAL | SYNTAX | SEMANTIC | CODEGEN | RUNTIME
  deriving DecidableEq, Repr

/-- ErrorHandler::Error (src/src/error_handler.h lines 21-30). -/
structure Err where
  level : ErrorLevel
  line : Nat
  column : Nat
  message : String
  sourceSnippet : String := ""
  deriving DecidableEq, Repr

/-! ## Types (struct Type, src/src/ast.h lines 20-30): a name, an array flag
and an array size, `-1` meaning dynamic. -/

structure Ty where
  name : String
  isArray : Bool := false
  arraySize : Int := -1
  deriving DecidableEq, Repr

/-- SymbolTable::isCompatibleTypes (src/src/symbol_table.cpp lines 129-153).
The first argument is the destination, the second the source: widening accepts
an `int` source for a `float` destination but not the reverse. -/
def isCompatibleTypes (left right : Ty) : Bool :=
  if left.name = "any" || right.name = "any" then true
  else if left.name = right.name && left.isArray = right.isArray then
    if left.isArray && right.isArray then
      left.arraySize = -1 || right.arraySize = -1 || left.arraySize = right.arraySize
    else true
  else if !left.isArray && !right.isArray then
    left.name = "float" && right.name = "int"
  else false

/-! ## Parser fragment (src/src/parser.cpp). Only the pieces the claims need
are transcribed: the token-cursor primitives and `Parser::parseType`. -/

/-- Parser state (src/src/parser.h lines 18-19) together with the syntax
errors it pushes on the bus. -/
structure ParserSt where
  toks : List Token
  current : Nat
  errors : List Err
  deriving DecidableEq, Repr

/-- Parser::peek (src/src/parser.cpp lines 7-9); the vector access is guarded
by the END sentinel in practice. -/
def ParserSt.peekT (p : ParserSt) : Token := p.toks.getD p.current ⟨.END, "", 0, 0⟩

/-- Parser::previous (src/src/parser.cpp lines 11-13). -/
def ParserSt.previousT (p : ParserSt) : Token := p.toks.getD (p.current - 1) ⟨.END, "", 0, 0⟩

/-- Parser::isAtEnd (src/src/parser.cpp lines 20-22). -/
def ParserSt.isAtEndT (p : ParserSt) : Bool := p.peekT.type = .END

/-- Parser::advance (src/src/parser.cpp lines 15-18). -/
def ParserSt.advanceT (p : ParserSt) : ParserSt :=
  if p.isAtEndT then p else { p with current := p.current + 1 }

/-- Parser::check (src/src/parser.cpp lines 24-27). -/
def ParserSt.checkT (p : ParserSt) (t : TokenType) : Bool :=
  if p.isAtEndT then false else p.peekT.type = t

/-- Parser::consume (src/src/parser.cpp lines 37-49): on a mismatch it reports
a syntax error and returns the current token without advancing. -/
def ParserSt.consumeT (p : ParserSt) (t : TokenType) (msg : String) : Token × ParserSt :=
  if p.checkT t then
    let p1 := p.advanceT
    (p1.previousT, p1)
  else
    (p.peekT, { p with errors := p.errors ++ [⟨.SYNTAX, p.peekT.line, p.peekT.column, msg, ""⟩] })

/-- Parser::parseType (src/src/parser.cpp lines 98-127). It matches the type
keywords INT, FLOAT_TYPE, BOOL_TYPE, STRING_TYPE and VOID in that order; any
other token reports "Expected type specifier" and yields `Type("error")`.
Since the lexer never emits a VOID token (no "void" keyword entry), the VOID
arm is unreachable on lexer output. -/
def parseTypeP (p0 : ParserSt) : Ty × ParserSt :=
  let step : Option String × ParserSt :=
    if p0.checkT .INT then (some "int", p0.advanceT)
    else if p0.checkT .FLOAT_TYPE then (some "float", p0.advanceT)
    else if p0.checkT .BOOL_TYPE then (some "bool", p0.advanceT)
    else if p0.checkT .STRING_TYPE then (some "str", p0.advanceT)
    else if p0.checkT .VOID then (some "void", p0.advanceT)
    else (none, p0)
  match step with
  | (none, p1) =>
    (⟨"error", false, -1⟩,
     { p1 with errors := p1.errors ++
        [⟨.SYNTAX, p1.peekT.line, p1.peekT.column, "Expected type specifier", ""⟩] })
  | (some nm, p1) =>
    if p1.checkT .LBRACKET then
      let p2 := p1.advanceT
      let (size, p3) :=
        if p2.checkT .NUMBER then
          let p2a := p2.advanceT
          (((p2a.previousT.value.toNat?).getD 0 : Int), p2a)
        else ((-1 : Int), p2)
      let (_, p4) := p3.consumeT .RBRACKET "Expected ']' after array size"
      (⟨nm, true, size⟩, p4)
    else (⟨nm, false, -1⟩, p1)

/-! ## AST (src/src/ast.h), as the parser constructs it.

`ASTNode` carries a parent pointer (`ASTNode* parent = nullptr`, src/src/ast.h
line 39) with a setter `setParent` (line 41). No code in the repository ever
calls `setParent` or assigns `parent`, so the pointer is null on every node of
every tree the parser builds. The two places that read it are modelled by the
fields below:
* `CallExpr` — `CodegenVisitor::generateMallocCall` does
  `dynamic_cast<VarDeclStmt*>(node->parent)`; the field
  `parentVarDeclType` holds the declared type that cast would expose, and is
  `none` in every constructed tree;
* `BlockStmt` — `SemanticAnalyzer::visit(BlockStmt*)` does
  `dynamic_cast<FunctionDecl*>(node->parent)` and compares `body.get()` with
  the node; the field `parentIsFunctionBody` holds that test's outcome, and is
  `false` in every constructed tree. -/

inductive SExpr where
  | numberE (token : Token) (isFloat : Bool)
  | stringE (token : Token)
  | boolE (token : Token) (value : Bool)
  | variableE (name : Token)
  | arrayAccessE (array : SExpr) (index : SExpr) (bracket : Token)
  | binaryE (left : SExpr) (op : Token) (right : SExpr)
  | unaryE (op : Token) (expr : SExpr)
  | typeE (type : Ty) (token : Token)
  | assignE (target : SExpr) (op : Token) (value : SExpr)
  | callE (name : Token) (args : List SExpr) (parentVarDeclType : Option Ty)
  | arrayInitE (elements : List SExpr) (brace : Token)
  | arrayAllocE (elementType : Ty) (size : SExpr) (tok : Token)

/-- The Location each expression node carries (src/src/ast.h: each constructor
passes one of its tokens to `Location`). -/
def SExpr.locOf : SExpr → Nat × Nat
  | .numberE t _ => (t.line, t.column)
  | .stringE t => (t.line, t.column)
  | .boolE t _ => (t.line, t.column)
  | .variableE t => (t.line, t.column)
  | .arrayAccessE _ _ b => (b.line, b.column)
  | .binaryE _ op _ => (op.line, op.column)
  | .unaryE op _ => (op.line, op.column)
  | .typeE _ t => (t.line, t.column)
  | .assignE _ op _ => (op.line, op.column)
  | .callE n _ _ => (n.line, n.column)
  | .arrayInitE _ b => (b.line, b.column)
  | .arrayAllocE _ _ t => (t.line, t.column)

inductive SStmt where
  | exprStmtS (expr : SExpr) (startTok : Token)
  | varDeclS (name : Token) (type : Ty) (initializer : Option SExpr) (varTok : Token)
  | blockS (statements : List SStmt) (brace : Token) (parentIsFunctionBody : Bool)
  | ifS (condition : SExpr) (thenBranch : SStmt) (elseBranch : Option SStmt) (ifTok : Token)
  | whileS (condition : SExpr) (body : SStmt) (whileTok : Token)
  | returnS (keyword : Token) (value : Option SExpr)

/-- Parameter (src/src/ast.h lines 246-252). -/
structure Param where
  name : Token
  type : Ty
  deriving DecidableEq, Repr

/-- FunctionDecl (src/src/ast.h lines 255-271). -/
structure FunctionDeclA where
  name : Token
  returnType : Ty
  parameters : List Param
  body : SStmt

/-- Program (src/src/ast.h lines 274-281). -/
structure ProgramA where
  functions : List FunctionDeclA

/-! ## Symbol table (src/src/symbol_table.h, src/src/symbol_table.cpp).
The process singleton is modelled as the `scopes`/`errors` part of `SemSt`. -/

/-- Symbol (src/src/symbol_table.h lines 14-43): a variable with its type, or
a function symbol whose `type` field holds the return type. -/
inductive Symb where
  | varS (type : Ty)
  | funcS (returnType : Ty) (parameters : List Param)
  deriving DecidableEq, Repr

/-- Symbol::type: a FunctionSymbol stores its return type in the base `type`
field (src/src/symbol_table.h line 38). -/
def Symb.type : Symb → Ty
  | .varS t => t
  | .funcS rt _ => rt

/-- Scope (src/src/symbol_table.h lines 46-65): the identifier-to-symbol map
of one lexical level (modelled as an insertion-ordered association list; the
`declare` guard keeps keys unique). -/
structure Scope where
  symbols : List (String × Symb)
  deriving DecidableEq, Repr

/-- Lookup in one scope (the map part of Scope::resolve). -/
def scopeFind (s : Scope) (name : String) : Option Symb :=
  (s.symbols.find? (fun p => p.1 = name)).map Prod.snd

/-- Combined mutable state of the two singletons (SymbolTable scope stack +
ErrorHandler bus) and the per-run fields of SemanticAnalyzer
(src/src/semantic_visitor.h lines 40-42). `enters`/`exits` count the calls to
`enterScope`/`exitScope` made during the modelled run. -/
structure SemSt where
  scopes : List Scope
  errors : List Err
  enters : Nat := 0
  exits : Nat := 0
  currentFunctionReturnType : Ty := ⟨"void", false, -1⟩
  mainFound : Bool := false
  deriving DecidableEq, Repr

/-- Appending one record to the ErrorHandler bus (ErrorHandler::error). -/
def SemSt.pushErr (st : SemSt) (e : Err) : SemSt := { st with errors := st.errors ++ [e] }

/-- SymbolTable::enterScope (src/src/symbol_table.h line 81). -/
def SemSt.enterScope (st : SemSt) : SemSt :=
  { st with scopes := st.scopes ++ [⟨[]⟩], enters := st.enters + 1 }

/-- SymbolTable::exitScope (src/src/symbol_table.h line 82). -/
def SemSt.exitScope (st : SemSt) : SemSt :=
  if st.scopes.isEmpty then { st with exits := st.exits + 1 }
  else { st with scopes := st.scopes.dropLast, exits := st.exits + 1 }

/-- Scope::resolve walking the parent chain (src/src/symbol_table.cpp lines
61-69): innermost scope first. -/
def resolveInScopes (name : String) : List Scope → Option Symb
  | [] => none
  | s :: rest =>
    match scopeFind s name with
    | some sym => some sym
    | none => resolveInScopes name rest

/-- SymbolTable::resolve (src/src/symbol_table.cpp lines 116-119). -/
def SemSt.resolve (st : SemSt) (name : String) : Option Symb :=
  resolveInScopes name st.scopes.reverse

/-- SymbolTable::resolveFunction (src/src/symbol_table.cpp lines 121-127). -/
def SemSt.resolveFunction (st : SemSt) (name : String) : Option (Ty × List Param) :=
  match st.resolve name with
  | some (.funcS rt ps) => some (rt, ps)
  | _ => none

/-- SymbolTable::declare (src/src/symbol_table.cpp lines 71-91): reports on
the bus and returns false when no scope is active or the name already exists
in the innermost scope; otherwise inserts a variable symbol there. -/
def SemSt.declareVar (st : SemSt) (name : String) (ty : Ty) : Bool × SemSt :=
  match st.scopes.getLast? with
  | none => (false, st.pushErr ⟨.SEMANTIC, 0, 0, "No active scope for declaration", ""⟩)
  | some sc =>
    if (scopeFind sc name).isSome then
      (false, st.pushErr ⟨.SEMANTIC, 0, 0,
        "Symbol '" ++ name ++ "' already declared in current scope", ""⟩)
    else
      (true, { st with scopes := st.scopes.dropLast ++ [⟨sc.symbols ++ [(name, .varS ty)]⟩] })

/-- SymbolTable::declareFunction (src/src/symbol_table.cpp lines 93-114). -/
def SemSt.declareFunction (st : SemSt) (name : String) (rt : Ty) (ps : List Param) :
    Bool × SemSt :=
  match st.scopes.getLast? with
  | none => (false, st.pushErr ⟨.SEMANTIC, 0, 0, "No active scope for function declaration", ""⟩)
  | some sc =>
    if (scopeFind sc name).isSome then
      (false, st.pushErr ⟨.SEMANTIC, 0, 0,
        "Function '" ++ name ++ "' already declared in current scope", ""⟩)
    else
      (true, { st with scopes := st.scopes.dropLast ++ [⟨sc.symbols ++ [(name, .funcS rt ps)]⟩] })

/-- The state of the freshly constructed SymbolTable singleton: its private
constructor enters the global scope (src/src/symbol_table.h line 103), and
the ErrorHandler bus starts empty. -/
def initialSemSt : SemSt :=
  { scopes := [⟨[]⟩], errors := [], enters := 0, exits := 0,
    currentFunctionReturnType := ⟨"void", false, -1⟩, mainFound := false }

/-! ## Semantic analyzer (src/src/semantic_visitor.cpp). -/

/-- SemanticAnalyzer::getExprType (src/src/semantic_visitor.cpp lines
286-312): only literals and variables are typed; an unresolved variable
reports "Undefined variable" on the bus; every other node yields nullopt. -/
def getExprType (st : SemSt) : SExpr → Option Ty × SemSt
  | .numberE _ isFloat => (some ⟨if isFloat then "float" else "int", false, -1⟩, st)
  | .stringE _ => (some ⟨"str", false, -1⟩, st)
  | .boolE _ _ => (some ⟨"bool", false, -1⟩, st)
  | .variableE name =>
    match st.resolve name.value with
    | some sym => (some sym.type, st)
    | none => (none, st.pushErr ⟨.SEMANTIC, name.line, name.column,
        "Undefined variable: " ++ name.value, ""⟩)
  | _ => (none, st)

/-- SemanticAnalyzer::checkBinaryOperatorTypes (src/src/semantic_visitor.cpp
lines 314-339). -/
def checkBinaryOperatorTypes (op : Token) (left right : Ty) : Bool :=
  if op.type = .PLUS || op.type = .MINUS || op.type = .STAR || op.type = .SLASH then
    (left.name = "int" || left.name = "float") && (right.name = "int" || right.name = "float")
  else if op.type = .LESS || op.type = .LESS_EQUAL ||
          op.type = .GREATER || op.type = .GREATER_EQUAL then
    (left.name = "int" || left.name = "float") && (right.name = "int" || right.name = "float")
  else if op.type = .EQUALS_EQUALS || op.type = .NOT_EQUALS then
    isCompatibleTypes left right
  else if op.type = .AND || op.type = .OR then
    left.name = "bool" && right.name = "bool"
  else false

/-- SemanticAnalyzer::isConditionExpr (src/src/semantic_visitor.cpp lines
5-38). -/
def isConditionExpr (st : SemSt) : SExpr → Bool × SemSt
  | .binaryE _ op _ =>
    (op.type = .LESS || op.type = .LESS_EQUAL || op.type = .GREATER ||
     op.type = .GREATER_EQUAL || op.type = .EQUALS_EQUALS || op.type = .NOT_EQUALS ||
     op.type = .AND || op.type = .OR, st)
  | .unaryE op _ => (op.type = .NOT, st)
  | e =>
    let (t, st1) := getExprType st e
    (match t with | some ty => ty.name = "bool" | none => false, st1)

/-- Tail of SemanticAnalyzer::visit(VarDeclStmt*) (src/src/semantic_visitor.cpp
lines 241-250): the declaration attempt and its duplicate diagnostic. -/
def varDeclDeclare (st : SemSt) (name : Token) (ty : Ty) : SemSt :=
  let (ok, st1) := st.declareVar name.value ty
  if !ok then
    st1.pushErr ⟨.SEMANTIC, name.line, name.column,
      "Variable already declared in this scope: " ++ name.value, ""⟩
  else st1

/-- Expression dispatch of SemanticAnalyzer (the accept/visit pairs in
src/src/semantic_visitor.cpp). None of the expression visitors recurses via
`accept`; they only consult `getExprType` on immediate children. -/
def visitExpr (st : SemSt) : SExpr → SemSt
  | .numberE _ _ => st
  | .stringE _ => st
  | .boolE _ _ => st
  | .typeE _ _ => st
  | .variableE name =>
    if (st.resolve name.value).isSome then st
    else st.pushErr ⟨.SEMANTIC, name.line, name.column,
      "Undefined variable: " ++ name.value, ""⟩
  | .arrayAccessE arr idx _ =>
    let (arrTy, st1) := getExprType st arr
    let (idxTy, st2) := getExprType st1 idx
    match arrTy with
    | none => st2
    | some aty =>
      if !aty.isArray then
        st2.pushErr ⟨.SEMANTIC, (SExpr.locOf arr).1, (SExpr.locOf arr).2,
          "Cannot index non-array type", ""⟩
      else
        match idxTy with
        | some ity =>
          if ity.name ≠ "int" then
            st2.pushErr ⟨.SEMANTIC, (SExpr.locOf idx).1, (SExpr.locOf idx).2,
              "Array index must be an integer", ""⟩
          else st2
        | none => st2
  | .binaryE l op r =>
    let (lt, st1) := getExprType st l
    let (rt, st2) := getExprType st1 r
    match lt, rt with
    | some lty, some rty =>
      if !checkBinaryOperatorTypes op lty rty then
        st2.pushErr ⟨.SEMANTIC, op.line, op.column,
          "Invalid operand types for operator " ++ op.value, ""⟩
      else st2
    | _, _ => st2
  | .unaryE op e =>
    let (t, st1) := getExprType st e
    match t with
    | none => st1
    | some ty =>
      if op.type = .MINUS then
        if ty.name ≠ "int" && ty.name ≠ "float" then
          st1.pushErr ⟨.SEMANTIC, op.line, op.column, "Unary minus requires numeric operand", ""⟩
        else st1
      else if op.type = .NOT then
        if ty.name ≠ "bool" then
          st1.pushErr ⟨.SEMANTIC, op.line, op.column, "Logical not requires boolean operand", ""⟩
        else st1
      else st1.pushErr ⟨.SEMANTIC, op.line, op.column, "Unknown unary operator", ""⟩
  | .assignE target op value =>
    let (tt, st1) := getExprType st target
    let (vt, st2) := getExprType st1 value
    match tt, vt with
    | some tty, some vty =>
      if !isCompatibleTypes tty vty then
        st2.pushErr ⟨.SEMANTIC, op.line, op.column,
          "Type mismatch in assignment. Cannot assign " ++ vty.name ++ " to " ++ tty.name, ""⟩
      else st2
    | _, _ => st2
  | .callE name args _ =>
    match st.resolveFunction name.value with
    | none => st.pushErr ⟨.SEMANTIC, name.line, name.column,
        "Undefined function: " ++ name.value, ""⟩
    | some (_, params) =>
      if params.length ≠ args.length then
        st.pushErr ⟨.SEMANTIC, name.line, name.column,
          "Wrong number of arguments to function " ++ name.value ++ ". Expected " ++
          toString params.length ++ " but got " ++ toString args.length, ""⟩
      else
        (params.zip args).foldl (fun s pa =>
          let (t, s1) := getExprType s pa.2
          match t with
          | some ty =>
            if !isCompatibleTypes pa.1.type ty then
              s1.pushErr ⟨.SEMANTIC, (SExpr.locOf pa.2).1, (SExpr.locOf pa.2).2,
                "Argument type mismatch. Expected " ++ pa.1.type.name ++ " but got " ++ ty.name, ""⟩
            else s1
          | none => s1) st
  | .arrayInitE elems _ =>
    match elems with
    | [] => st
    | e0 :: restEls =>
      let (ft, st1) := getExprType st e0
      match ft with
      | none => st1
      | some fty =>
        restEls.foldl (fun s el =>
          let (t, s1) := getExprType s el
          match t with
          | some ty =>
            if !isCompatibleTypes fty ty then
              s1.pushErr ⟨.SEMANTIC, (SExpr.locOf el).1, (SExpr.locOf el).2,
                "Array elements must have compatible types", ""⟩
            else s1
          | none => s1) st1
  | .arrayAllocE _ sizeE _ =>
    let (t, st1) := getExprType st sizeE
    match t with
    | some ty =>
      if ty.name ≠ "int" then
        st1.pushErr ⟨.SEMANTIC, (SExpr.locOf sizeE).1, (SExpr.locOf sizeE).2,
          "Array size must be an integer", ""⟩
      else st1
    | none => st1

mutual

/-- Statement dispatch of SemanticAnalyzer (src/src/semantic_visitor.cpp). The
`blockS` arm transcribes visit(BlockStmt*) lines 341-361: a new scope is
entered unless the dynamic cast of the null parent pointer identifies the
block as a function body. The `varDeclS` arm transcribes visit(VarDeclStmt*)
lines 224-251: a type mismatch reports and returns before the declaration. -/
def visitStmt (st : SemSt) : SStmt → SemSt
  | .exprStmtS e _ => visitExpr st e
  | .varDeclS name ty init _ =>
    (match init with
     | some ie =>
       let st1 := visitExpr st ie
       let (it, st2) := getExprType st1 ie
       (match it with
        | some ity =>
          if !isCompatibleTypes ty ity then
            st2.pushErr ⟨.SEMANTIC, name.line, name.column,
              "Type mismatch in variable declaration. Expected " ++ ty.name ++
              " but got " ++ ity.name, ""⟩
          else varDeclDeclare st2 name ty
        | none => varDeclDeclare st2 name ty)
     | none => varDeclDeclare st name ty)
  | .blockS stmts _ parentIsFunctionBody =>
    let isNewScope := !parentIsFunctionBody
    let st1 := if isNewScope then st.enterScope else st
    let st2 := visitStmtList st1 stmts
    if isNewScope then st2.exitScope else st2
  | .ifS cond thenB elseB _ =>
    let st1 := visitExpr st cond
    let (ok, st2) := isConditionExpr st1 cond
    let st3 :=
      if !ok then
        st2.pushErr ⟨.SEMANTIC, (SExpr.locOf cond).1, (SExpr.locOf cond).2,
          "If condition must evaluate to a boolean value", ""⟩
      else st2
    let st4 := visitStmt st3 thenB
    (match elseB with
     | some e => visitStmt st4 e
     | none => st4)
  | .whileS cond body _ =>
    let st1 := visitExpr st cond
    let (ok, st2) := isConditionExpr st1 cond
    let st3 :=
      if !ok then
        st2.pushErr ⟨.SEMANTIC, (SExpr.locOf cond).1, (SExpr.locOf cond).2,
          "While condition must evaluate to a boolean value", ""⟩
      else st2
    visitStmt st3 body
  | .returnS kw val =>
    (match val with
     | none =>
       if st.currentFunctionReturnType.name ≠ "void" then
         st.pushErr ⟨.SEMANTIC, kw.line, kw.column,
           "Function must return a value of type " ++ st.currentFunctionReturnType.name, ""⟩
       else st
     | some v =>
       let (rt, st1) := getExprType st v
       (match rt with
        | some rty =>
          if !isCompatibleTypes st1.currentFunctionReturnType rty then
            st1.pushErr ⟨.SEMANTIC, (SExpr.locOf v).1, (SExpr.locOf v).2,
              "Return type mismatch. Expected " ++ st1.currentFunctionReturnType.name ++
              " but got " ++ rty.name, ""⟩
          else st1
        | none => st1))

/-- Sequential visit of a block's statements. -/
def visitStmtList (st : SemSt) : List SStmt → SemSt
  | [] => st
  | s :: rest => visitStmtList (visitStmt st s) rest

end

/-- SemanticAnalyzer::isValidMainSignature (src/src/semantic_visitor.cpp lines
156-222). -/
def isValidMainSignature (st : SemSt) (f : FunctionDeclA) : Bool × SemSt :=
  if f.returnType.name ≠ "int" then
    (false, st.pushErr ⟨.SEMANTIC, f.name.line, f.name.column,
      "Main function must return int, found: " ++ f.returnType.name, ""⟩)
  else if f.parameters.isEmpty then (true, st)
  else if f.parameters.length = 2 then
    let dflt : Param := ⟨⟨.IDENTIFIER, "", 0, 0⟩, ⟨"", false, -1⟩⟩
    let argc := f.parameters.getD 0 dflt
    let argv := f.parameters.getD 1 dflt
    let (v1, st1) :=
      if argc.type.name ≠ "int" || argc.type.isArray then
        (false, st.pushErr ⟨.SEMANTIC, argc.name.line, argc.name.column,
          "First parameter of main must be 'argc: int'", ""⟩)
      else (true, st)
    let (v2, st2) :=
      if argv.type.name ≠ "str" || !argv.type.isArray then
        (false, st1.pushErr ⟨.SEMANTIC, argv.name.line, argv.name.column,
          "Second parameter of main must be 'argv: str[]'", ""⟩)
      else (true, st1)
    (v1 && v2, st2)
  else
    let foundParams := String.intercalate ", " (f.parameters.map (fun p =>
      p.type.name ++ (if p.type.isArray then "[]" else "") ++ " " ++ p.name.value))
    (false, st.pushErr ⟨.SEMANTIC, f.name.line, f.name.column,
      "Main function must either have no parameters or (argc: int, argv: str[]), found: (" ++
      foundParams ++ ")", ""⟩)

/-- SemanticAnalyzer::visit(FunctionDecl*) (src/src/semantic_visitor.cpp lines
125-150): re-validates main, then enters the function scope, records the
return type, declares the parameters, visits the body and exits the scope. -/
def visitFunctionDecl (st : SemSt) (f : FunctionDeclA) : SemSt :=
  let st1 :=
    if f.name.value = "main" then
      let (v, s) := isValidMainSignature st f
      { s with mainFound := v }
    else st
  let st2 := st1.enterScope
  let st3 := { st2 with currentFunctionReturnType := f.returnType }
  let st4 := f.parameters.foldl (fun s p =>
    let (ok, s1) := s.declareVar p.name.value p.type
    if !ok then
      s1.pushErr ⟨.SEMANTIC, p.name.line, p.name.column,
        "Duplicate parameter name: " ++ p.name.value, ""⟩
    else s1) st3
  let st5 := visitStmt st4 f.body
  st5.exitScope

/-- SemanticAnalyzer::visit(Program*) (src/src/semantic_visitor.cpp lines
88-121): the declaration pass (with main validation), the missing-main check
and the body pass. -/
def visitProgram (st : SemSt) (p : ProgramA) : SemSt :=
  let st0 := { st with mainFound := false }
  let st1 := p.functions.foldl (fun s f =>
    let (ok, s1) := s.declareFunction f.name.value f.returnType f.parameters
    let s2 :=
      if !ok then
        s1.pushErr ⟨.SEMANTIC, f.name.line, f.name.column,
          "Duplicate function declaration: " ++ f.name.value, ""⟩
      else s1
    if f.name.value = "main" then
      let (v, s3) := isValidMainSignature s2 f
      { s3 with mainFound := v }
    else s2) st0
  let st2 :=
    if !st1.mainFound then
      st1.pushErr ⟨.SEMANTIC, 0, 0,
        "No valid main function found. Program must have a main function.", ""⟩
    else st1
  p.functions.foldl visitFunctionDecl st2

/-- SemanticAnalyzer::declareBuiltinFunctions (src/src/semantic_visitor.cpp
lines 52-86). The boolean results are discarded exactly as in the source; a
failed declaration still leaves its bus record (pushed inside
SymbolTable::declareFunction). -/
def declareBuiltinFunctions (st : SemSt) : SemSt :=
  let bt : String → Token := fun v => ⟨.IDENTIFIER, v, 0, 0⟩
  let d : SemSt → String → Ty → List Param → SemSt :=
    fun s name rt ps => (s.declareFunction name rt ps).2
  let s1 := d st "print" ⟨"int", false, -1⟩ [⟨bt "value", ⟨"any", false, -1⟩⟩]
  let s2 := d s1 "input" ⟨"str", false, -1⟩ [⟨bt "prompt", ⟨"str", false, -1⟩⟩]
  let s3 := d s2 "sizeof" ⟨"int", false, -1⟩ [⟨bt "type", ⟨"any", false, -1⟩⟩]
  let s4 := d s3 "malloc" ⟨"any", true, -1⟩ [⟨bt "size", ⟨"int", false, -1⟩⟩]
  let s5 := d s4 "free" ⟨"void", false, -1⟩ [⟨bt "ptr", ⟨"any", true, -1⟩⟩]
  d s5 "realloc" ⟨"any", true, -1⟩ [⟨bt "ptr", ⟨"any", true, -1⟩⟩, ⟨bt "size", ⟨"int", false, -1⟩⟩]

/-- ErrorHandler::hasErrors(SEMANTIC) over the bus. -/
def SemSt.hasSemanticErrors (st : SemSt) : Bool :=
  st.errors.any (fun e => e.level = .SEMANTIC)

/-- SemanticAnalyzer::analyze (src/src/semantic_visitor.cpp lines 41-50):
declares the builtins, visits the program, and succeeds iff the bus holds no
SEMANTIC record. The scope stack and the bus persist in the singletons across
calls; no reset exists anywhere in the repository. -/
def analyze (st : SemSt) (p : ProgramA) : Bool × SemSt :=
  let st1 := declareBuiltinFunctions st
  let st2 := visitProgram st1 p
  (!st2.hasSemanticErrors, st2)

/-! ## IR generator (src/src/codegen_visitor.cpp, src/src/type_helper.cpp).
LLVM types and constant values are modelled just deeply enough for the
claims. -/

inductive LLVMType where
  | intT (width : Nat)
  | doubleT
  | voidT
  | ptrT (elem : LLVMType)
  | arrayT (size : Nat) (elem : LLVMType)
  deriving DecidableEq, Repr

/-- TypeHelper::getLLVMType (src/src/type_helper.cpp lines 5-42): scalar names
map to i32/double/i1/void/i8*, an unknown name reports and yields null
(`none`); a dynamic array becomes a pointer to the base type, a fixed array an
LLVM array of it. -/
def getLLVMType (t : Ty) : Option LLVMType :=
  let base : Option LLVMType :=
    if t.name = "int" then some (.intT 32)
    else if t.name = "float" then some .doubleT
    else if t.name = "bool" then some (.intT 1)
    else if t.name = "void" then some .voidT
    else if t.name = "str" then some (.ptrT (.intT 8))
    else none
  match base with
  | none => none
  | some b =>
    if t.isArray && t.arraySize < 0 then some (.ptrT b)
    else if t.isArray then some (.arrayT t.arraySize.toNat b)
    else some b

/-- Parameter lowering of the declaration pass — the first loop of
CodegenVisitor::visit(Program*) (src/src/codegen_visitor.cpp lines 106-141):
each parameter type is lowered with TypeHelper::getLLVMType and pushed
unchanged (lines 118-126); no decay is applied there. A failed lowering
reports and abandons the declaration (`none`). -/
def programPassAParamTypes (params : List Param) : Option (List LLVMType) :=
  params.mapM (fun p => getLLVMType p.type)

/-- Parameter lowering of the body pass fallback — CodegenVisitor::
visit(FunctionDecl*) (src/src/codegen_visitor.cpp lines 155-174), executed
only when `module->getFunction` finds no existing declaration. Because the
declaration pass has already created every resolvable function, this is the
path that would decay an array parameter to pointer-to-element. -/
def functionDeclParamTypes (params : List Param) : Option (List LLVMType) :=
  params.mapM (fun p =>
    match getLLVMType p.type with
    | none => none
    | some t =>
      some (if p.type.isArray then
              match t with
              | .arrayT _ elem => .ptrT elem
              | .ptrT e => .ptrT e
              | other => other
            else t))

/-- Result-pointer type of CodegenVisitor::generateMallocCall
(src/src/codegen_visitor.cpp lines 956-976): the target element type comes
from `dynamic_cast<VarDeclStmt*>(node->parent)` when that cast succeeds
(lowering `Type(parent->type.name, false)`), and defaults to i8 otherwise;
the malloc result is bitcast to a pointer to it. -/
def generateMallocCastType (parentVarDeclType : Option Ty) : LLVMType :=
  let target : Option LLVMType :=
    match parentVarDeclType with
    | some pt => getLLVMType ⟨pt.name, false, -1⟩
    | none => none
  .ptrT (target.getD (.intT 8))

/-- The value the VarDecl dynamic cast in generateMallocCall exposes for a
call node: the `parentVarDeclType` field of the AST model (see the AST
section — it is `none` on every tree the parser builds, because `setParent`
is never called). -/
def callParentVarDeclType : SExpr → Option Ty
  | .callE _ _ p => p
  | _ => none

/-- Runtime behaviour of the straight-line code CodegenVisitor emits for a
boolean expression over variables, literals and the logical operators.
visit(BinaryExpr*) (src/src/codegen_visitor.cpp lines 300-391)
unconditionally lowers the left operand, then the right operand (lines
301-305), and for AND/OR emits a single CreateAnd/CreateOr (lines 379-385)
in the current basic block; it creates no blocks and no conditional branch,
so the loads emitted for either operand execute whenever the expression
does. `evalLowered env e` returns the ordered list of variable slots the
emitted code loads at run time together with the computed i1 value
(visit(VariableExpr*) lines 277-298 emits the load; visit(BoolExpr*) lines
273-275 emits a constant). Expression forms outside this fragment are not
lowered here. -/
def evalLowered (env : String → Bool) : SExpr → List String × Option Bool
  | .boolE _ v => ([], some v)
  | .variableE name => ([name.value], some (env name.value))
  | .binaryE l op r =>
    let (tl, vl) := evalLowered env l
    let (tr, vr) := evalLowered env r
    (tl ++ tr,
     match vl, vr with
     | some a, some b =>
       if op.type = .AND then some (a && b)
       else if op.type = .OR then some (a || b)
       else none
     | _, _ => none)
  | _ => ([], none)

/-- Constant values, carrying their LLVM type (integer payloads model the
numeric constants the initializers produce). -/
inductive CVal where
  | intV (width : Nat) (val : Int)
  | doubleV (val : Int)
  | ptrV (ty : LLVMType)
  deriving DecidableEq, Repr

/-- The LLVM type of a modelled value. -/
def CVal.llvmType : CVal → LLVMType
  | .intV w _ => .intT w
  | .doubleV _ => .doubleT
  | .ptrV t => t

/-- Two's-complement reinterpretation of the low `w` bits, signed. -/
def toSigned (w : Nat) (n : Int) : Int :=
  let m := n % ((2 : Int) ^ w)
  if m < 2 ^ (w - 1) then m else m - 2 ^ w

/-- TypeHelper::convertToIntN (src/src/type_helper.cpp lines 158-167):
same width is the identity, a narrower source is sign-extended (value
preserved), a wider one truncated to the low bits. -/
def convertToIntN (v : CVal) (width : Nat) : CVal :=
  match v with
  | .intV w n =>
    if w = width then v
    else if w < width then .intV width n
    else .intV width (toSigned width n)
  | _ => v

/-- TypeHelper::isNumericType (src/src/type_helper.cpp lines 135-137). -/
def isNumericType : LLVMType → Bool
  | .intT _ => true
  | .doubleT => true
  | _ => false

/-- TypeHelper::isArrayOrPointerType (src/src/type_helper.cpp lines 139-141). -/
def isArrayOrPointerType : LLVMType → Bool
  | .arrayT _ _ => true
  | .ptrT _ => true
  | _ => false

/-- TypeHelper::convert (src/src/type_helper.cpp lines 107-133): identity on
equal types; SIToFP / FPToSI / convertToIntN between numeric types (integral
payloads are preserved); a bitcast between array/pointer types retypes the
value; anything else yields null. -/
def convert (v : CVal) (target : LLVMType) : Option CVal :=
  let source := v.llvmType
  if source = target then some v
  else if isNumericType source && isNumericType target then
    match v, target with
    | .intV _ n, .doubleT => some (.doubleV n)
    | .doubleV n, .intT w => some (.intV w n)
    | .intV _ _, .intT w => some (convertToIntN v w)
    | _, _ => none
  else if isArrayOrPointerType source && isArrayOrPointerType target then
    some (.ptrV target)
  else none

/-- llvm::Constant::getNullValue for the modelled types. -/
def zeroValue : LLVMType → CVal
  | .intT w => .intV w 0
  | .doubleT => .doubleV 0
  | t => .ptrV t

/-- CodegenVisitor::initializeFixedArray (src/src/codegen_visitor.cpp lines
1394-1438). `elementValues` holds the value each initializer element lowers
to (`none` when the element's lowering produced no value, in which case no
store is emitted for that index, lines 1415-1419). The first loop stores the
converted value of each of the first `min(k, arraySize)` elements at indices
0..; the second loop stores the element type's zero at the remaining indices
below `arraySize`. The result lists the (index, stored value) pairs in
emission order. -/
def initializeFixedArray (elementType : LLVMType) (elementValues : List (Option CVal))
    (arraySize : Nat) : List (Nat × Option CVal) :=
  let numElements := min elementValues.length arraySize
  ((List.range numElements).filterMap (fun i =>
    match elementValues.getD i none with
    | some v => some (i, convert v elementType)
    | none => none)) ++
  ((List.range' numElements (arraySize - numElements)).map
    (fun i => (i, some (zeroValue elementType))))

/-! ## Concrete inputs for the claims. Token positions are the ones the lexer
assigns on the quoted one-line sources; parent-reference fields are `none` /
`false`, as on every tree the parser builds (`setParent` has no callers). -/

/-- Shorthand for a token on line 1. -/
def tkn (t : TokenType) (v : String) (c : Nat) : Token := ⟨t, v, 1, c⟩

/-- AST of `fn int main() { return 0; }`. -/
def progMainReturn0 : ProgramA :=
  ⟨[{ name := tkn .IDENTIFIER "main" 8,
      returnType := ⟨"int", false, -1⟩,
      parameters := [],
      body := .blockS
        [.returnS (tkn .RETURN "return" 17) (some (.numberE (tkn .NUMBER "0" 24) false))]
        (tkn .LBRACE "\x7b" 15) false }]⟩

/-- AST of `fn int main(argc: int, argv: str[]) { var argc: int = 0; return 0; }`:
a valid main whose body redeclares the parameter name `argc` at the top level
of the body block. -/
def progMainShadowParam : ProgramA :=
  ⟨[{ name := tkn .IDENTIFIER "main" 8,
      returnType := ⟨"int", false, -1⟩,
      parameters := [⟨tkn .IDENTIFIER "argc" 13, ⟨"int", false, -1⟩⟩,
                     ⟨tkn .IDENTIFIER "argv" 24, ⟨"str", true, -1⟩⟩],
      body := .blockS
        [.varDeclS (tkn .IDENTIFIER "argc" 43) ⟨"int", false, -1⟩
           (some (.numberE (tkn .NUMBER "0" 55) false)) (tkn .VAR "var" 39),
         .returnS (tkn .RETURN "return" 58) (some (.numberE (tkn .NUMBER "0" 65) false))]
        (tkn .LBRACE "\x7b" 37) false }]⟩

/-- AST of `fn int main() { var x: int = 2.5; x = 1; return 0; }`: a variable
declaration whose initializer type is incompatible with the declared type,
followed by a use of the same name in the same scope. -/
def progMismatchThenUse : ProgramA :=
  ⟨[{ name := tkn .IDENTIFIER "main" 8,
      returnType := ⟨"int", false, -1⟩,
      parameters := [],
      body := .blockS
        [.varDeclS (tkn .IDENTIFIER "x" 21) ⟨"int", false, -1⟩
           (some (.numberE (tkn .FLOAT_LITERAL "2.5" 30) true)) (tkn .VAR "var" 17),
         .exprStmtS (.assignE (.variableE (tkn .IDENTIFIER "x" 35)) (tkn .EQUALS "=" 37)
           (.numberE (tkn .NUMBER "1" 39) false)) (tkn .IDENTIFIER "x" 35),
         .returnS (tkn .RETURN "return" 42) (some (.numberE (tkn .NUMBER "0" 49) false))]
        (tkn .LBRACE "\x7b" 15) false }]⟩

/-- AST of `fn int main() { var x: float = 3; return 0; }` (widening: int
initializer for a float variable). -/
def progWidening : ProgramA :=
  ⟨[{ name := tkn .IDENTIFIER "main" 8,
      returnType := ⟨"int", false, -1⟩,
      parameters := [],
      body := .blockS
        [.varDeclS (tkn .IDENTIFIER "x" 21) ⟨"float", false, -1⟩
           (some (.numberE (tkn .NUMBER "3" 32) false)) (tkn .VAR "var" 17),
         .returnS (tkn .RETURN "return" 35) (some (.numberE (tkn .NUMBER "0" 42) false))]
        (tkn .LBRACE "\x7b" 15) false }]⟩

/-- AST of `fn int main() { var x: int = 3.5; return 0; }` (narrowing: float
initializer for an int variable). -/
def progNarrowing : ProgramA :=
  ⟨[{ name := tkn .IDENTIFIER "main" 8,
      returnType := ⟨"int", false, -1⟩,
      parameters := [],
      body := .blockS
        [.varDeclS (tkn .IDENTIFIER "x" 21) ⟨"int", false, -1⟩
           (some (.numberE (tkn .FLOAT_LITERAL "3.5" 30) true)) (tkn .VAR "var" 17),
         .returnS (tkn .RETURN "return" 35) (some (.numberE (tkn .NUMBER "0" 42) false))]
        (tkn .LBRACE "\x7b" 15) false }]⟩

/-- The initializer `2.5` of the mismatched declaration. -/
def mismatchInit : SExpr := .numberE (tkn .FLOAT_LITERAL "2.5" 30) true

/-- The statement `var x: int = 2.5;` (declared type `int`, initializer typed
`float`). -/
def mismatchVarDecl : SStmt :=
  .varDeclS (tkn .IDENTIFIER "x" 21) ⟨"int", false, -1⟩ (some mismatchInit) (tkn .VAR "var" 17)

/-- The declaration of `fn void f(a: int[3])` (spec scenario: fixed-array
parameter). -/
def fnVoidFIntArr3 : FunctionDeclA :=
  { name := tkn .IDENTIFIER "f" 9,
    returnType := ⟨"void", false, -1⟩,
    parameters := [⟨tkn .IDENTIFIER "a" 11, ⟨"int", true, 3⟩⟩],
    body := .blockS [] (tkn .LBRACE "\x7b" 22) false }

/-- The `malloc(12)` call node as the parser builds it inside
`var x: int[] = malloc(12);` — `CallExpr(var->name, args)` with the parent
pointer left null (Parser::parseCall, src/src/parser.cpp lines 416-433). -/
def mallocCallInVarDecl : SExpr :=
  .callE (tkn .IDENTIFIER "malloc" 16) [.numberE (tkn .NUMBER "12" 23) false] none

/-- The expression `a && b` over two variables. -/
def andVarAB : SExpr :=
  .binaryE (.variableE (tkn .IDENTIFIER "a" 1)) (tkn .AND "&&" 3)
    (.variableE (tkn .IDENTIFIER "b" 6))

/-- The expression `a || b` over two variables. -/
def orVarAB : SExpr :=
  .binaryE (.variableE (tkn .IDENTIFIER "a" 1)) (tkn .OR "||" 3)
    (.variableE (tkn .IDENTIFIER "b" 6))

/-- The token sequence of `fn void f() { return; }` as the lexer produces it
("void" lexes as an identifier). -/
def fnVoidTokens : List Token :=
  [⟨.FN, "fn", 1, 1⟩, ⟨.IDENTIFIER, "void", 1, 4⟩, ⟨.IDENTIFIER, "f", 1, 9⟩,
   ⟨.LPAREN, "(", 1, 10⟩, ⟨.RPAREN, ")", 1, 11⟩, ⟨.LBRACE, "\x7b", 1, 13⟩,
   ⟨.RETURN, "return", 1, 15⟩, ⟨.SEMICOLON, ";", 1, 21⟩, ⟨.RBRACE, "\x7d", 1, 23⟩,
   ⟨.END, "", 1, 24⟩]

/-! ## Shared helper lemmas. -/

/-- A filterMap whose function is total-`some` on the list is a map. -/
theorem filterMap_eq_map_of_some {α β : Type} (l : List α) (f : α → Option β) (g : α → β)
    (h : ∀ a ∈ l, f a = some (g a)) : l.filterMap f = l.map g := by
  induction l with
  | nil => rfl
  | cons x xs ih =>
    rw [List.filterMap_cons, h x (List.mem_cons_self x xs), List.map_cons,
        ih (fun a ha => h a (List.mem_cons_of_mem x ha))]

/-! ## Claims. -/

/-- C1: the lexer does not report lexical errors on the diagnostics bus and
continue; it throws. On `"var x: float = 3."` (a trailing decimal point)
`Lexer::handleNumber` throws a `LexerError`, which `tokenize` propagates: no
token list is returned, no `End` sentinel is emitted, and nothing reaches the
`ErrorHandler`. -/
theorem c1_lexer_throws_on_trailing_dot :
    tokenize "var x: float = 3." =
      .error ⟨"Invalid float literal: needs at least one digit after decimal point",
              1, 18, "Number so far: 3."⟩ := by
  rfl

/-- C2: for `fn void f(a: int[3])` the declaration pass of the IR generator
(first loop of `visit(Program*)`) lowers the parameter to the by-value array
type `[3 x i32]`, not the decayed pointer `i32*`; the decay exists only in the
`visit(FunctionDecl*)` creation path, which is bypassed because the
declaration pass has already put the function in the module. -/
theorem c2_declaration_pass_keeps_array_param :
    programPassAParamTypes fnVoidFIntArr3.parameters = some [.arrayT 3 (.intT 32)] ∧
    functionDeclParamTypes fnVoidFIntArr3.parameters = some [.ptrT (.intT 32)] ∧
    (LLVMType.arrayT 3 (.intT 32) ≠ LLVMType.ptrT (.intT 32)) := by
  refine ⟨rfl, rfl, by decide⟩

/-- C3: the `malloc(12)` call inside `var x: int[] = malloc(12);` carries a
null parent pointer (no caller of `setParent` exists), so the dynamic cast in
`generateMallocCall` fails and the result is cast to the byte pointer `i8*`,
not to `i32*` — the pointer type the declared element type would give had the
parent link been populated. -/
theorem c3_malloc_cast_defaults_to_byte_pointer :
    callParentVarDeclType mallocCallInVarDecl = none ∧
    generateMallocCastType (callParentVarDeclType mallocCallInVarDecl) = .ptrT (.intT 8) ∧
    generateMallocCastType (some ⟨"int", true, -1⟩) = .ptrT (.intT 32) ∧
    (LLVMType.ptrT (.intT 8) ≠ LLVMType.ptrT (.intT 32)) := by
  refine ⟨rfl, rfl, rfl, by decide⟩

/-- C4: a function body's block does introduce a new scope, because the parent
pointer the analyzer inspects is never set. Analyzing
`fn int main(argc: int, argv: str[]) { var argc: int = 0; return 0; }`
succeeds with no diagnostics (the body-level `argc` lands in a fresh block
scope instead of clashing with the parameter), and the analyzer enters two
scopes for the single function — the function scope and the body block's. -/
theorem c4_function_body_block_opens_scope :
    (analyze initialSemSt progMainShadowParam).1 = true ∧
    (analyze initialSemSt progMainShadowParam).2.errors = [] ∧
    (analyze initialSemSt progMainShadowParam).2.enters = 2 ∧
    (analyze initialSemSt progMainShadowParam).2.exits = 2 := by
  refine ⟨rfl, rfl, rfl, rfl⟩

/-- C5 counterexample: in
`fn int main() { var x: int = 2.5; x = 1; return 0; }` the mismatched
declaration does not declare `x`, so the later use `x = 1` produces exactly
the undefined-variable error the claim says cannot occur. -/
theorem c5_counterexample_use_after_mismatch :
    (analyze initialSemSt progMismatchThenUse).2.errors =
      [⟨.SEMANTIC, 1, 21, "Type mismatch in variable declaration. Expected int but got float", ""⟩,
       ⟨.SEMANTIC, 1, 35, "Undefined variable: x", ""⟩] := by
  rfl

/-- C5 (amended): when a variable declaration's initializer types to a type
incompatible with the declared one, `visit(VarDeclStmt*)` pushes the
type-mismatch diagnostic and returns early — the variable is NOT declared:
the scope stack is left exactly as the initializer's analysis left it. -/
theorem c5_mismatch_skips_declaration (st : SemSt) (name : Token) (ty : Ty)
    (ie : SExpr) (varTok : Token) (t : Ty)
    (hty : (getExprType (visitExpr st ie) ie).1 = some t)
    (hcompat : isCompatibleTypes ty t = false) :
    visitStmt st (.varDeclS name ty (some ie) varTok) =
      ((getExprType (visitExpr st ie) ie).2).pushErr
        ⟨.SEMANTIC, name.line, name.column,
         "Type mismatch in variable declaration. Expected " ++ ty.name ++
         " but got " ++ t.name, ""⟩ ∧
    (visitStmt st (.varDeclS name ty (some ie) varTok)).scopes =
      ((getExprType (visitExpr st ie) ie).2).scopes := by
  rcases hE : getExprType (visitExpr st ie) ie with ⟨it, st2⟩
  rw [hE] at hty
  simp only at hty
  subst hty
  constructor
  · simp only [visitStmt, hE, hcompat, Bool.not_false, if_true]
  · simp only [visitStmt, hE, hcompat, Bool.not_false, if_true, SemSt.pushErr]

/-- C5 witness: the amended statement applied to the mismatched declaration
`var x: int = 2.5;` in the initial state. -/
theorem c5_mismatch_skips_declaration_witness :
    (getExprType (visitExpr initialSemSt mismatchInit) mismatchInit).1 =
      some ⟨"float", false, -1⟩ ∧
    isCompatibleTypes ⟨"int", false, -1⟩ ⟨"float", false, -1⟩ = false ∧
    (visitStmt initialSemSt mismatchVarDecl =
      ((getExprType (visitExpr initialSemSt mismatchInit) mismatchInit).2).pushErr
        ⟨.SEMANTIC, 1, 21,
         "Type mismatch in variable declaration. Expected int but got float", ""⟩ ∧
     (visitStmt initialSemSt mismatchVarDecl).scopes =
      ((getExprType (visitExpr initialSemSt mismatchInit) mismatchInit).2).scopes) :=
  ⟨rfl, rfl,
   c5_mismatch_skips_declaration initialSemSt (tkn .IDENTIFIER "x" 21) ⟨"int", false, -1⟩
     mismatchInit (tkn .VAR "var" 17) ⟨"float", false, -1⟩ rfl rfl⟩

/-- C6 counterexample: for `a && b` with `a` false at run time, the code the
IR generator emits still loads (evaluates) `b` — the loads of both operands
sit unconditionally in the same basic block — so the right operand is not
evaluated "only when a is true". -/
theorem c6_counterexample_rhs_evaluated :
    ((fun _ => false : String → Bool) "a" = false) ∧
    (evalLowered (fun _ => false) andVarAB).1 = ["a", "b"] ∧
    (evalLowered (fun _ => false) andVarAB).2 = some false := by
  refine ⟨rfl, rfl, rfl⟩

/-- C6 (amended): `&&` and `||` are lowered without short-circuiting: the
emitted straight-line block evaluates the left operand, then unconditionally
the right operand, and combines the i1 values with a bitwise and / or. -/
theorem c6_logical_ops_lower_bitwise (env : String → Bool) :
    evalLowered env andVarAB = (["a", "b"], some (env "a" && env "b")) ∧
    evalLowered env orVarAB = (["a", "b"], some (env "a" || env "b")) := by
  exact ⟨rfl, rfl⟩

/-- C6 witness: the amended statement applied at the all-true environment. -/
theorem c6_logical_ops_lower_bitwise_witness :
    evalLowered (fun _ => true) andVarAB =
      (["a", "b"], some ((fun _ => true : String → Bool) "a" && (fun _ => true : String → Bool) "b")) ∧
    evalLowered (fun _ => true) orVarAB =
      (["a", "b"], some ((fun _ => true : String → Bool) "a" || (fun _ => true : String → Bool) "b")) :=
  c6_logical_ops_lower_bitwise (fun _ => true)

/-- C7: nothing resets the symbol-table singleton or clears the bus between
compilations. The first analysis of `fn int main() { return 0; }` from the
freshly constructed singleton succeeds with no diagnostics; running the same
analysis again on the persisted state fails, with the built-in declarations
(and `main`) rejected as already declared. -/
theorem c7_second_compilation_fails :
    (analyze initialSemSt progMainReturn0).1 = true ∧
    (analyze initialSemSt progMainReturn0).2.errors = [] ∧
    (analyze (analyze initialSemSt progMainReturn0).2 progMainReturn0).1 = false ∧
    (⟨.SEMANTIC, 0, 0, "Function 'print' already declared in current scope", ""⟩ : Err) ∈
      (analyze (analyze initialSemSt progMainReturn0).2 progMainReturn0).2.errors := by
  refine ⟨rfl, rfl, rfl, by decide⟩

/-- C8: the compatibility relation widens int into float and not the reverse:
`is_compatible(float, int)` is true, `is_compatible(int, float)` is false;
`fn int main() { var x: float = 3; return 0; }` passes semantic analysis
with no diagnostics, and the narrowing initializer `var x: int = 3.5;` is
rejected with exactly the type-mismatch error. -/
theorem c8_widening_not_narrowing :
    isCompatibleTypes ⟨"float", false, -1⟩ ⟨"int", false, -1⟩ = true ∧
    isCompatibleTypes ⟨"int", false, -1⟩ ⟨"float", false, -1⟩ = false ∧
    (analyze initialSemSt progWidening).1 = true ∧
    (analyze initialSemSt progWidening).2.errors = [] ∧
    (analyze initialSemSt progNarrowing).2.errors =
      [⟨.SEMANTIC, 1, 21,
        "Type mismatch in variable declaration. Expected int but got float", ""⟩] := by
  refine ⟨rfl, rfl, rfl, rfl, rfl⟩

/-- C9: the keyword table has no "void" entry, so the lexeme `void` lexes as
an `Identifier` token, not a keyword; consequently in
`fn void f() { return; }` the parser's `parseType` finds no type token at the
return-type position and reports the syntax error "Expected type specifier",
yielding the error type instead of `void`. -/
theorem c9_void_lexes_as_identifier :
    keywordLookup "void" = none ∧
    tokenize "void" = .ok [⟨.IDENTIFIER, "void", 1, 1⟩, ⟨.END, "", 1, 5⟩] ∧
    tokenize "fn void f() \x7b return; \x7d" = .ok fnVoidTokens ∧
    (parseTypeP ⟨fnVoidTokens, 1, []⟩).1 = ⟨"error", false, -1⟩ ∧
    (parseTypeP ⟨fnVoidTokens, 1, []⟩).2.errors =
      [⟨.SYNTAX, 1, 4, "Expected type specifier", ""⟩] := by
  refine ⟨rfl, rfl, rfl, rfl, rfl⟩

/-- C10: `initializeFixedArray` stores the converted value of each of the
first `min(k, N)` initializer elements at indices `0..min(k, N)-1`, emits no
store at or beyond index `N`, and stores the element type's zero at every
index from `min(k, N)` to `N-1`: the emitted stores are exactly one per index
of `0..N-1`, holding the coerced element where one exists and zero elsewhere. -/
theorem c10_fixed_array_initialization (elementType : LLVMType) (vals : List CVal) (N : Nat) :
    initializeFixedArray elementType (vals.map some) N =
      (List.range N).map (fun i =>
        match vals[i]? with
        | some v => (i, convert v elementType)
        | none => (i, some (zeroValue elementType))) := by
  set g : Nat → Nat × Option CVal := fun i =>
    match vals[i]? with
    | some v => (i, convert v elementType)
    | none => (i, some (zeroValue elementType)) with hg
  simp only [initializeFixedArray, List.length_map]
  set m := min vals.length N with hm
  have hmN : m ≤ N := Nat.min_le_right _ _
  have hsplit : List.range N = List.range' 0 m ++ List.range' m (N - m) := by
    have h1 := List.range'_append 0 m (N - m) 1
    simp only [Nat.zero_add, Nat.one_mul] at h1
    rw [List.range_eq_range', h1]
    congr 1
    omega
  rw [hsplit, List.map_append]
  congr 1
  · rw [← List.range_eq_range']
    apply filterMap_eq_map_of_some
    intro i hi
    have hik : i < vals.length := lt_of_lt_of_le (List.mem_range.mp hi) (Nat.min_le_left _ _)
    have hv : vals[i]? = some vals[i] := List.getElem?_eq_getElem hik
    rw [List.getD_eq_getElem?_getD, List.getElem?_map, hv]
    simp [hg, hv]
  · apply List.map_congr_left
    intro i hi
    rw [List.mem_range'_1] at hi
    have hlen : vals.length ≤ i := by omega
    simp [hg, List.getElem?_eq_none hlen]

/-- C10 witness: the statement evaluated at a concrete element list (two int
constants into an i32 array of four slots). -/
theorem c10_fixed_array_initialization_witness :
    initializeFixedArray (.intT 32) ([CVal.intV 32 1, CVal.intV 32 2].map some) 4 =
      (List.range 4).map (fun i =>
        match [CVal.intV 32 1, CVal.intV 32 2][i]? with
        | some v => (i, convert v (.intT 32))
        | none => (i, some (zeroValue (.intT 32)))) :=
  c10_fixed_array_initialization (.intT 32) [CVal.intV 32 1, CVal.intV 32 2] 4

end Lei
